import Mathlib

/-!
Verification development for the RF outdoor link planner (`src/app.js`).

The embedding models JavaScript numbers as exact real numbers, except that
the special values produced by division and multiplication (NaN and the two
infinities) are tracked explicitly by the type `JsVal` on the code paths
where a division can be degenerate.  Float rounding and overflow are out of
scope of the model.  Geographic coordinates and frequencies entering the
program are modelled as rationals (every concrete JS input is a rational);
all derived geometry lives in `ℝ`.
-/

open Real

/-- A JavaScript number: a finite value, NaN, or a signed infinity. -/
inductive JsVal : Type
  | num (x : ℝ)
  | nan
  | posInf
  | negInf

/-- JavaScript division on `JsVal`: `0/0 = NaN`, `x/0 = ±∞` for `x ≠ 0`,
`x/±∞ = 0` for finite `x`, NaN propagates. -/
noncomputable def jsDiv : JsVal → JsVal → JsVal
  | JsVal.num x, JsVal.num y =>
      if y = 0 then
        (if x = 0 then JsVal.nan else if 0 < x then JsVal.posInf else JsVal.negInf)
      else JsVal.num (x / y)
  | JsVal.num _, JsVal.posInf => JsVal.num 0
  | JsVal.num _, JsVal.negInf => JsVal.num 0
  | JsVal.num _, JsVal.nan => JsVal.nan
  | JsVal.nan, _ => JsVal.nan
  | JsVal.posInf, JsVal.num y => if 0 ≤ y then JsVal.posInf else JsVal.negInf
  | JsVal.posInf, _ => JsVal.nan
  | JsVal.negInf, JsVal.num y => if 0 ≤ y then JsVal.negInf else JsVal.posInf
  | JsVal.negInf, _ => JsVal.nan

/-- JavaScript multiplication on `JsVal`: `0 * ±∞ = NaN`, NaN propagates. -/
noncomputable def jsMul : JsVal → JsVal → JsVal
  | JsVal.num x, JsVal.num y => JsVal.num (x * y)
  | JsVal.num x, JsVal.posInf =>
      if x = 0 then JsVal.nan else if 0 < x then JsVal.posInf else JsVal.negInf
  | JsVal.num x, JsVal.negInf =>
      if x = 0 then JsVal.nan else if 0 < x then JsVal.negInf else JsVal.posInf
  | JsVal.num _, JsVal.nan => JsVal.nan
  | JsVal.nan, _ => JsVal.nan
  | JsVal.posInf, JsVal.num y =>
      if y = 0 then JsVal.nan else if 0 < y then JsVal.posInf else JsVal.negInf
  | JsVal.posInf, JsVal.posInf => JsVal.posInf
  | JsVal.posInf, JsVal.negInf => JsVal.negInf
  | JsVal.posInf, JsVal.nan => JsVal.nan
  | JsVal.negInf, JsVal.num y =>
      if y = 0 then JsVal.nan else if 0 < y then JsVal.negInf else JsVal.posInf
  | JsVal.negInf, JsVal.posInf => JsVal.negInf
  | JsVal.negInf, JsVal.negInf => JsVal.posInf
  | JsVal.negInf, JsVal.nan => JsVal.nan

/-- Truncation towards zero, as used by JavaScript's `%` operator. -/
noncomputable def jsTrunc (t : ℝ) : ℤ :=
  if 0 ≤ t then ⌊t⌋ else ⌈t⌉

/-- JavaScript's remainder operator `x % y` on finite numbers:
`x - y * trunc (x / y)` (sign follows the dividend). -/
noncomputable def jsFmod (x y : ℝ) : ℝ :=
  x - y * (jsTrunc (x / y) : ℝ)

/-- JavaScript's `Math.atan2 y x`: the argument of the complex number
`x + y·i`, in `(-π, π]`, with `atan2 0 0 = 0`. -/
noncomputable def atan2 (y x : ℝ) : ℝ :=
  Complex.arg ⟨x, y⟩

/-- `SPEED_OF_LIGHT` from `src/app.js` line 2. -/
def SPEED_OF_LIGHT : ℝ := 3e8

/-- `calculateMaxFresnelRadius` from `src/app.js` lines 57-66: max radius of
the first Fresnel zone at the link midpoint. -/
noncomputable def calculateMaxFresnelRadius (frequencyHz distanceMeters : ℝ) : ℝ :=
  if frequencyHz ≤ 0 ∨ distanceMeters ≤ 0 then 0
  else Real.sqrt (SPEED_OF_LIGHT / frequencyHz * distanceMeters / 4)

/-- Reference definition following the spec's words (§4.2): wavelength is
`3e8 / frequencyHz`, the radius is `sqrt (wavelength * distanceMeters / 4)`,
and the result is 0 if either input is ≤ 0. -/
noncomputable def specMaxFresnelRadius (frequencyHz distanceMeters : ℝ) : ℝ :=
  if 0 < frequencyHz ∧ 0 < distanceMeters then
    Real.sqrt ((3e8 / frequencyHz) * distanceMeters / 4)
  else 0

/-- A geographic coordinate pair `(lat, lng)`, in degrees.  Concrete inputs
to the program are rationals. -/
abbrev LatLng : Type := ℚ × ℚ

/-- A pixel point `(x, y)`. -/
abbrev Point : Type := ℝ × ℝ

/-- Leaflet's `L.Point.distanceTo`: Euclidean pixel distance. -/
noncomputable def pointDist (p q : Point) : ℝ :=
  Real.sqrt ((p.1 - q.1) ^ 2 + (p.2 - q.2) ^ 2)

/-- Leaflet's `L.LatLng.distanceTo` (`CRS.Earth.distance`): haversine
great-circle distance with mean Earth radius 6371000 m.  This is external
library code used at `src/app.js` line 208. -/
noncomputable def haversineDist (a b : LatLng) : ℝ :=
  6371000 * (2 * atan2
    (Real.sqrt (Real.sin (((b.1 : ℝ) - (a.1 : ℝ)) * Real.pi / 180 / 2) ^ 2 +
      Real.cos ((a.1 : ℝ) * Real.pi / 180) * Real.cos ((b.1 : ℝ) * Real.pi / 180) *
        Real.sin (((b.2 : ℝ) - (a.2 : ℝ)) * Real.pi / 180 / 2) ^ 2))
    (Real.sqrt (1 - (Real.sin (((b.1 : ℝ) - (a.1 : ℝ)) * Real.pi / 180 / 2) ^ 2 +
      Real.cos ((a.1 : ℝ) * Real.pi / 180) * Real.cos ((b.1 : ℝ) * Real.pi / 180) *
        Real.sin (((b.2 : ℝ) - (a.2 : ℝ)) * Real.pi / 180 / 2) ^ 2))))

/-- The bearing computation inlined in `drawFresnelZone`, `src/app.js`
lines 218-227: spherical initial bearing from `a` to `b` via `atan2`,
normalized into `[0, 360)` by `(deg + 360) % 360`. -/
noncomputable def bearingDeg (a b : LatLng) : ℝ :=
  jsFmod
    (atan2
      (Real.sin (((b.2 : ℝ) - (a.2 : ℝ)) * Real.pi / 180) *
        Real.cos ((b.1 : ℝ) * Real.pi / 180))
      (Real.cos ((a.1 : ℝ) * Real.pi / 180) * Real.sin ((b.1 : ℝ) * Real.pi / 180) -
        Real.sin ((a.1 : ℝ) * Real.pi / 180) * Real.cos ((b.1 : ℝ) * Real.pi / 180) *
          Real.cos (((b.2 : ℝ) - (a.2 : ℝ)) * Real.pi / 180)) * 180 / Real.pi + 360)
    360

/-- The spec's Geo-Math `midpoint` (§4.1): arithmetic mean of latitude and
longitude, not the spherical midpoint. -/
def midpointLatLng (a b : LatLng) : LatLng :=
  ((a.1 + b.1) / 2, (a.2 + b.2) / 2)

/-- Entity identifiers: the strings `T<n>` and `L<n>` generated from the
shared `nextId` counter (`src/app.js` lines 75 and 149), modelled by their
tag and number (the string rendering is injective in them). -/
inductive EntityId : Type
  | tower (n : ℕ)
  | link (n : ℕ)
deriving DecidableEq

/-- A tower record (`src/app.js` lines 86-91); the Leaflet marker handle is
omitted, its mutable border colour is irrelevant to the claims. -/
structure Tower : Type where
  id : EntityId
  lat : ℚ
  lng : ℚ
  frequencyGHz : ℚ
deriving DecidableEq

/-- A link record (`src/app.js` lines 158-163); the polyline handle is
modelled by its mutable CSS class name (`setStyle` calls). -/
structure Link : Type where
  id : EntityId
  towerAId : EntityId
  towerBId : EntityId
  className : String
deriving DecidableEq

/-- The `linkPlanner` global state (`src/app.js` lines 3-9); `selectedLink`
holds the identifier of the selected link object. -/
structure AppState : Type where
  towers : List Tower
  links : List Link
  activeLinkPhase : Option EntityId
  selectedLinkId : Option EntityId
  nextId : ℕ
deriving DecidableEq

/-- The external map service (spec §6): projection of a geographic point to
the layer's pixel space (`map.latLngToLayerPoint`) and the current pixel
origin (`map.getPixelOrigin`). -/
structure Viewport : Type where
  project : LatLng → Point
  pixelOrigin : Point

/-- The SVG attributes written to the Fresnel ellipse (`src/app.js` lines
267-275): center, semi-axes, and the rotation transform
`rotate(rotationDeg, rotCenterX, rotCenterY)`.  `ry` is the only attribute
whose computation can divide by zero, so it carries full JS semantics. -/
structure EllipseAttrs : Type where
  cx : ℝ
  cy : ℝ
  rx : ℝ
  ry : JsVal
  rotationDeg : ℝ
  rotCenterX : ℝ
  rotCenterY : ℝ

/-- The DOM state touched by `drawFresnelZone`: how many ellipse elements
exist under the overlay, their attributes, and whether the overlay is
displayed. -/
structure RenderState : Type where
  ellipseCount : ℕ
  attrs : Option EllipseAttrs
  visible : Bool

/-- The numeric body of `drawFresnelZone` (`src/app.js` lines 204-275) for
towers `tA`, `tB` under viewport `vp`: distance, frequency, Fresnel radius,
midpoint, bearing, projection, pixel-origin correction, and the scale
division `metersPerPixel = distanceMeters / lengthPixels` feeding `ry`. -/
noncomputable def computeEllipseAttrs (vp : Viewport) (tA tB : Tower) : EllipseAttrs :=
  let latlngA : LatLng := (tA.lat, tA.lng)
  let latlngB : LatLng := (tB.lat, tB.lng)
  let distanceMeters := haversineDist latlngA latlngB
  let frequencyHz := (tA.frequencyGHz : ℝ) * 1e9
  let maxFresnelRadiusMeters := calculateMaxFresnelRadius frequencyHz distanceMeters
  let centerLatlng : LatLng := ((tA.lat + tB.lat) / 2, (tA.lng + tB.lng) / 2)
  let centerPoint := vp.project centerLatlng
  let pA := vp.project latlngA
  let pB := vp.project latlngB
  let cx := centerPoint.1 - vp.pixelOrigin.1
  let cy := centerPoint.2 - vp.pixelOrigin.2
  let lengthPixels := pointDist pA pB
  let metersPerPixel := jsDiv (JsVal.num distanceMeters) (JsVal.num lengthPixels)
  let rMaxPixels := jsDiv (JsVal.num maxFresnelRadiusMeters) metersPerPixel
  { cx := cx, cy := cy, rx := lengthPixels / 2, ry := rMaxPixels,
    rotationDeg := bearingDeg latlngA latlngB - 90, rotCenterX := cx, rotCenterY := cy }

/-- `drawFresnelZone` (`src/app.js` lines 198-279) as a transition on the
render state: look both towers up, abort silently if either is missing,
otherwise find-or-create the single ellipse element, set its attributes and
make the overlay visible. -/
noncomputable def drawFresnelZone (towers : List Tower) (link : Link) (vp : Viewport)
    (rs : RenderState) : RenderState :=
  match towers.find? (fun t => t.id == link.towerAId),
        towers.find? (fun t => t.id == link.towerBId) with
  | some tA, some tB =>
      { ellipseCount := if rs.ellipseCount = 0 then 1 else rs.ellipseCount,
        attrs := some (computeEllipseAttrs vp tA tB),
        visible := true }
  | _, _ => rs

/-- The frequency-editing step of `handleTowerClick` (`src/app.js` lines
105-114).  `promptResult` is the parsed prompt outcome: `none` when the
dialog was cancelled or the text did not parse to a number; a value is
applied only when positive. -/
def applyFreqEdit (s : AppState) (towerId : EntityId) (promptResult : Option ℚ) : AppState :=
  match promptResult with
  | none => s
  | some freq =>
      if 0 < freq then
        { s with towers :=
            s.towers.map (fun t => if t.id = towerId then { t with frequencyGHz := freq } else t) }
      else s

/-- `createLink` (`src/app.js` lines 148-170): allocate an id from the
shared counter and append the link; the polyline starts unselected. -/
def createLink (s : AppState) (towerA towerB : Tower) : AppState :=
  { s with
    nextId := s.nextId + 1,
    links := s.links ++
      [{ id := EntityId.link s.nextId, towerAId := towerA.id, towerBId := towerB.id,
         className := "leaflet-link-line" }] }

/-- `handleTowerClick` (`src/app.js` lines 103-141): edit the frequency,
then run the two-click link-creation state machine.  The clicked tower is
assumed to be in the tower collection (markers are only created for stored
towers); `none` models the `TypeError` JavaScript would raise when a
referenced tower cannot be found. -/
def handleTowerClick (s : AppState) (towerId : EntityId) (promptResult : Option ℚ) :
    Option AppState :=
  let s1 := applyFreqEdit s towerId promptResult
  match s1.activeLinkPhase with
  | none => some { s1 with activeLinkPhase := some towerId }
  | some aId =>
      if aId = towerId then some { s1 with activeLinkPhase := none }
      else
        match s1.towers.find? (fun t => t.id == aId),
              s1.towers.find? (fun t => t.id == towerId) with
        | some towerA, some towerB =>
            if towerA.frequencyGHz = towerB.frequencyGHz then
              some { createLink s1 towerA towerB with activeLinkPhase := none }
            else
              some { s1 with activeLinkPhase := none }
        | _, _ => none

/-- `linkLine.setStyle` on the link with the given id: update its CSS class. -/
def setLinkClass (links : List Link) (linkId : EntityId) (cls : String) : List Link :=
  links.map (fun l => if l.id = linkId then { l with className := cls } else l)

/-- `handleLinkClick` (`src/app.js` lines 177-192): visually deselect the
previously selected link, select and highlight the clicked one, and draw the
Fresnel zone. -/
noncomputable def handleLinkClick (s : AppState) (rs : RenderState) (vp : Viewport)
    (link : Link) : AppState × RenderState :=
  let s1 :=
    match s.selectedLinkId with
    | some prevId => { s with links := setLinkClass s.links prevId "leaflet-link-line" }
    | none => s
  let s2 := { s1 with
    selectedLinkId := some link.id,
    links := setLinkClass s1.links link.id "leaflet-link-line-selected" }
  (s2, drawFresnelZone s2.towers link vp rs)

/-- Replace the frequency of the tower(s) with the given id, leaving every
other field and tower unchanged (used to state noninterference). -/
def updateTowerFreq (towers : List Tower) (towerId : EntityId) (freq : ℚ) : List Tower :=
  towers.map (fun t => if t.id = towerId then { t with frequencyGHz := freq } else t)

/-- Concrete tower at the origin, 5.8 GHz. -/
def towerOne : Tower := { id := EntityId.tower 1, lat := 0, lng := 0, frequencyGHz := 29/5 }

/-- Concrete tower at (3, 4), 5.8 GHz. -/
def towerTwo : Tower := { id := EntityId.tower 2, lat := 3, lng := 4, frequencyGHz := 29/5 }

/-- Concrete tower at (1, 1), 5.8 GHz. -/
def towerThree : Tower := { id := EntityId.tower 3, lat := 1, lng := 1, frequencyGHz := 29/5 }

/-- Concrete tower at the Bangalore office location, 5.8 GHz. -/
def towerSameA : Tower :=
  { id := EntityId.tower 1, lat := 13027/1000, lng := 77545/1000, frequencyGHz := 29/5 }

/-- A second tower at exactly the same coordinates and frequency. -/
def towerSameB : Tower :=
  { id := EntityId.tower 2, lat := 13027/1000, lng := 77545/1000, frequencyGHz := 29/5 }

/-- Concrete link joining `towerOne` and `towerTwo`. -/
def linkOne : Link :=
  { id := EntityId.link 4, towerAId := EntityId.tower 1, towerBId := EntityId.tower 2,
    className := "leaflet-link-line" }

/-- Concrete link joining `towerOne` and `towerThree`. -/
def linkTwo : Link :=
  { id := EntityId.link 5, towerAId := EntityId.tower 1, towerBId := EntityId.tower 3,
    className := "leaflet-link-line" }

/-- A viewport whose projection is the coordinate cast and whose pixel
origin is the zero vector. -/
noncomputable def vpId : Viewport :=
  { project := fun p => ((p.1 : ℝ), (p.2 : ℝ)), pixelOrigin := (0, 0) }

/-- The fresh render state: no ellipse element, nothing visible. -/
def rsEmpty : RenderState := { ellipseCount := 0, attrs := none, visible := false }

/-- Arbitrary concrete ellipse attributes, standing for a previous render. -/
noncomputable def attrsZero : EllipseAttrs :=
  { cx := 0, cy := 0, rx := 0, ry := JsVal.num 0, rotationDeg := 0,
    rotCenterX := 0, rotCenterY := 0 }

/-- A render state left behind by an earlier successful render: one ellipse
element, visible. -/
noncomputable def rsStale : RenderState :=
  { ellipseCount := 1, attrs := some attrsZero, visible := true }

theorem calculateMaxFresnelRadius_nonpos (f d : ℝ) (hd : d ≤ 0) :
    calculateMaxFresnelRadius f d = 0 := by
  unfold calculateMaxFresnelRadius
  rw [if_pos (Or.inr hd)]

theorem pointDist_self (p : Point) : pointDist p p = 0 := by
  unfold pointDist
  simp

theorem pointDist_nonneg (p q : Point) : 0 ≤ pointDist p q :=
  Real.sqrt_nonneg _

theorem atan2_zero_zero : atan2 0 0 = 0 := by
  unfold atan2
  have h : (⟨0, 0⟩ : ℂ) = 0 := by
    apply Complex.ext <;> simp
  rw [h, Complex.arg_zero]

theorem atan2_zero_one : atan2 0 1 = 0 := by
  unfold atan2
  have h : (⟨1, 0⟩ : ℂ) = 1 := by
    apply Complex.ext <;> simp
  rw [h, Complex.arg_one]

theorem haversineDist_self (a : LatLng) : haversineDist a a = 0 := by
  unfold haversineDist
  have h1 : ((a.1 : ℝ) - (a.1 : ℝ)) * Real.pi / 180 / 2 = 0 := by ring
  have h2 : ((a.2 : ℝ) - (a.2 : ℝ)) * Real.pi / 180 / 2 = 0 := by ring
  rw [h1, h2, Real.sin_zero]
  norm_num [atan2_zero_one]

theorem jsFmod_bounds (x : ℝ) (hx : 0 < x) : 0 ≤ jsFmod x 360 ∧ jsFmod x 360 < 360 := by
  have h0 : 0 ≤ x / 360 := by positivity
  have hkey : jsFmod x 360 = 360 * Int.fract (x / 360) := by
    unfold jsFmod jsTrunc
    rw [if_pos h0, Int.fract]
    ring
  have h1 := Int.fract_nonneg (x / 360)
  have h2 := Int.fract_lt_one (x / 360)
  rw [hkey]
  constructor <;> nlinarith

theorem atan2_scaled_pos (y x : ℝ) : 0 < atan2 y x * 180 / Real.pi + 360 := by
  have hπ := Real.pi_pos
  have h1 : -Real.pi < atan2 y x := by
    unfold atan2
    exact Complex.neg_pi_lt_arg _
  have h3 : (-180 : ℝ) < atan2 y x * 180 / Real.pi := by
    rw [lt_div_iff₀ hπ]
    nlinarith
  linarith

theorem bearingDeg_mem (a b : LatLng) : 0 ≤ bearingDeg a b ∧ bearingDeg a b < 360 := by
  unfold bearingDeg
  exact jsFmod_bounds _ (atan2_scaled_pos _ _)

theorem bearingDeg_self (p : LatLng) : bearingDeg p p = 0 := by
  unfold bearingDeg
  have e1 : ((p.2 : ℝ) - (p.2 : ℝ)) * Real.pi / 180 = 0 := by ring
  rw [e1, Real.sin_zero, Real.cos_zero, zero_mul]
  have e2 : Real.cos ((p.1 : ℝ) * Real.pi / 180) * Real.sin ((p.1 : ℝ) * Real.pi / 180) -
      Real.sin ((p.1 : ℝ) * Real.pi / 180) * Real.cos ((p.1 : ℝ) * Real.pi / 180) * 1 = 0 := by
    ring
  rw [e2, atan2_zero_zero]
  norm_num [jsFmod, jsTrunc]

theorem applyFreqEdit_preserves (s : AppState) (towerId : EntityId) (pr : Option ℚ) :
    (applyFreqEdit s towerId pr).links = s.links ∧
    (applyFreqEdit s towerId pr).selectedLinkId = s.selectedLinkId ∧
    (applyFreqEdit s towerId pr).activeLinkPhase = s.activeLinkPhase ∧
    (applyFreqEdit s towerId pr).nextId = s.nextId := by
  cases pr with
  | none => exact ⟨rfl, rfl, rfl, rfl⟩
  | some f =>
      simp only [applyFreqEdit]
      split <;> exact ⟨rfl, rfl, rfl, rfl⟩

theorem find?_key_map {α : Type} (key : α → EntityId) (f : α → α)
    (hf : ∀ x, key (f x) = key x) (ls : List α) (j : EntityId) :
    (ls.map f).find? (fun x => key x == j) = (ls.find? (fun x => key x == j)).map f := by
  rw [List.find?_map]
  have hp : ((fun x => key x == j) ∘ f) = (fun x => key x == j) := by
    funext x
    simp [Function.comp, hf]
  rw [hp]

theorem find?_key_eq {α : Type} (key : α → EntityId) (ls : List α) (j : EntityId) (t : α)
    (h : ls.find? (fun x => key x == j) = some t) : key t = j := by
  have := List.find?_some h
  simpa using this

/-- C1: `calculateMaxFresnelRadius` equals the spec's reference definition —
`sqrt ((3e8 / frequencyHz) * distanceMeters / 4)` for positive inputs and 0
when either input is ≤ 0 — and at 5.8 GHz over 1000 m it is approximately
3.597 m (within 0.005). -/
theorem fresnel_radius_matches_spec :
    (∀ f d : ℝ, calculateMaxFresnelRadius f d = specMaxFresnelRadius f d) ∧
    |calculateMaxFresnelRadius 5.8e9 1000 - 3.597| < 5e-3 := by
  constructor
  · intro f d
    unfold calculateMaxFresnelRadius specMaxFresnelRadius SPEED_OF_LIGHT
    by_cases h : f ≤ 0 ∨ d ≤ 0
    · rw [if_pos h, if_neg (fun hc => by rcases h with h | h <;> linarith [hc.1, hc.2])]
    · have h' := h
      push_neg at h'
      rw [if_neg h, if_pos h']
  · have hval : calculateMaxFresnelRadius 5.8e9 1000 = Real.sqrt (375 / 29) := by
      unfold calculateMaxFresnelRadius SPEED_OF_LIGHT
      rw [if_neg (by norm_num)]
      norm_num
    rw [hval]
    have h1 : Real.sqrt (375 / 29) < 3.598 := by
      rw [Real.sqrt_lt' (by norm_num)]
      norm_num
    have h2 : (3.592 : ℝ) < Real.sqrt (375 / 29) := by
      rw [Real.lt_sqrt (by norm_num)]
      norm_num
    rw [abs_sub_lt_iff]
    constructor <;> linarith

/-- C6: for positive frequency and distance the Fresnel radius is strictly
positive, strictly increasing in distance and strictly decreasing in
frequency. -/
theorem fresnel_radius_pos_mono (f d : ℝ) (hf : 0 < f) (hd : 0 < d) :
    0 < calculateMaxFresnelRadius f d ∧
    (∀ d', d < d' → calculateMaxFresnelRadius f d < calculateMaxFresnelRadius f d') ∧
    (∀ f', f < f' → calculateMaxFresnelRadius f' d < calculateMaxFresnelRadius f d) := by
  have hval : ∀ a b : ℝ, 0 < a → 0 < b →
      calculateMaxFresnelRadius a b = Real.sqrt (3e8 / a * b / 4) := by
    intro a b ha hb
    unfold calculateMaxFresnelRadius SPEED_OF_LIGHT
    rw [if_neg (by push_neg; constructor <;> linarith)]
  refine ⟨?_, ?_, ?_⟩
  · rw [hval f d hf hd]
    apply Real.sqrt_pos.2
    positivity
  · intro d' hdd
    rw [hval f d hf hd, hval f d' hf (lt_trans hd hdd)]
    apply Real.sqrt_lt_sqrt (by positivity)
    gcongr
  · intro f' hff
    have hf' : 0 < f' := lt_trans hf hff
    rw [hval f' d hf' hd, hval f d hf hd]
    apply Real.sqrt_lt_sqrt (by positivity)
    gcongr

/-- Witness for C6 at frequency 1 Hz and distance 1 m. -/
theorem fresnel_radius_pos_mono_witness :
    (0 : ℝ) < 1 ∧ 0 < calculateMaxFresnelRadius 1 1 :=
  ⟨by norm_num, (fresnel_radius_pos_mono 1 1 (by norm_num) (by norm_num)).1⟩

/-- C3: the rendered ellipse is centered on the external projection of the
arithmetic-mean midpoint of the two towers, corrected by the service's
current pixel origin. -/
theorem ellipse_center_projected_midpoint
    (towers : List Tower) (link : Link) (vp : Viewport) (rs : RenderState) (tA tB : Tower)
    (hA : towers.find? (fun t => t.id == link.towerAId) = some tA)
    (hB : towers.find? (fun t => t.id == link.towerBId) = some tB) :
    ((drawFresnelZone towers link vp rs).attrs).map EllipseAttrs.cx =
      some ((vp.project (midpointLatLng (tA.lat, tA.lng) (tB.lat, tB.lng))).1 -
        vp.pixelOrigin.1) ∧
    ((drawFresnelZone towers link vp rs).attrs).map EllipseAttrs.cy =
      some ((vp.project (midpointLatLng (tA.lat, tA.lng) (tB.lat, tB.lng))).2 -
        vp.pixelOrigin.2) := by
  unfold drawFresnelZone
  rw [hA, hB]
  exact ⟨rfl, rfl⟩

/-- Witness for C3 on a concrete two-tower state. -/
theorem ellipse_center_projected_midpoint_witness :
    ((drawFresnelZone [towerOne, towerTwo] linkOne vpId rsEmpty).attrs).map EllipseAttrs.cx =
      some ((vpId.project (midpointLatLng (towerOne.lat, towerOne.lng)
        (towerTwo.lat, towerTwo.lng))).1 - vpId.pixelOrigin.1) ∧
    ((drawFresnelZone [towerOne, towerTwo] linkOne vpId rsEmpty).attrs).map EllipseAttrs.cy =
      some ((vpId.project (midpointLatLng (towerOne.lat, towerOne.lng)
        (towerTwo.lat, towerTwo.lng))).2 - vpId.pixelOrigin.2) :=
  ellipse_center_projected_midpoint [towerOne, towerTwo] linkOne vpId rsEmpty towerOne towerTwo
    rfl rfl

/-- C4: the rendered ellipse's rotation is `bearing - 90` degrees about the
corrected center, where the bearing is the spherical `atan2` formula
normalized into `[0, 360)` and is 0 for identical points. -/
theorem ellipse_rotation_is_bearing
    (towers : List Tower) (link : Link) (vp : Viewport) (rs : RenderState) (tA tB : Tower)
    (hA : towers.find? (fun t => t.id == link.towerAId) = some tA)
    (hB : towers.find? (fun t => t.id == link.towerBId) = some tB) :
    ((drawFresnelZone towers link vp rs).attrs).map EllipseAttrs.rotationDeg =
      some (bearingDeg (tA.lat, tA.lng) (tB.lat, tB.lng) - 90) ∧
    ((drawFresnelZone towers link vp rs).attrs).map EllipseAttrs.rotCenterX =
      ((drawFresnelZone towers link vp rs).attrs).map EllipseAttrs.cx ∧
    ((drawFresnelZone towers link vp rs).attrs).map EllipseAttrs.rotCenterY =
      ((drawFresnelZone towers link vp rs).attrs).map EllipseAttrs.cy ∧
    (0 ≤ bearingDeg (tA.lat, tA.lng) (tB.lat, tB.lng) ∧
      bearingDeg (tA.lat, tA.lng) (tB.lat, tB.lng) < 360) ∧
    (∀ p : LatLng, bearingDeg p p = 0) := by
  refine ⟨?_, ?_, ?_, bearingDeg_mem _ _, bearingDeg_self⟩
  all_goals
    unfold drawFresnelZone
    rw [hA, hB]
    rfl

/-- Witness for C4 on a concrete two-tower state. -/
theorem ellipse_rotation_is_bearing_witness :
    ((drawFresnelZone [towerOne, towerTwo] linkOne vpId rsEmpty).attrs).map
        EllipseAttrs.rotationDeg =
      some (bearingDeg (towerOne.lat, towerOne.lng) (towerTwo.lat, towerTwo.lng) - 90) ∧
    0 ≤ bearingDeg (towerOne.lat, towerOne.lng) (towerTwo.lat, towerTwo.lng) :=
  ⟨(ellipse_rotation_is_bearing [towerOne, towerTwo] linkOne vpId rsEmpty towerOne towerTwo
      rfl rfl).1,
   (ellipse_rotation_is_bearing [towerOne, towerTwo] linkOne vpId rsEmpty towerOne towerTwo
      rfl rfl).2.2.2.1.1⟩

theorem jsScale_eq (r d L : ℝ) (hL : L ≠ 0) (hL0 : 0 ≤ L) (hr0 : d = 0 → r = 0) :
    jsDiv (JsVal.num r) (jsDiv (JsVal.num d) (JsVal.num L)) =
    jsMul (JsVal.num r) (jsDiv (JsVal.num L) (JsVal.num d)) := by
  by_cases hd : d = 0
  · have hr : r = 0 := hr0 hd
    subst hd
    subst hr
    have hLpos : 0 < L := lt_of_le_of_ne hL0 (Ne.symm hL)
    simp [jsDiv, jsMul, hL, hLpos]
  · have hdL : d / L ≠ 0 := div_ne_zero hd hL
    simp [jsDiv, jsMul, hd, hdL, hL]
    rw [div_div_eq_mul_div, mul_div_assoc]

/-- C5: `ry` is the Fresnel radius scaled by `lengthPixels / distanceMeters`
(the projected endpoint pixel distance over the geographic distance), and
`rx` is half the projected pixel length. -/
theorem ellipse_axes_from_projected_scale
    (towers : List Tower) (link : Link) (vp : Viewport) (rs : RenderState) (tA tB : Tower)
    (hA : towers.find? (fun t => t.id == link.towerAId) = some tA)
    (hB : towers.find? (fun t => t.id == link.towerBId) = some tB)
    (hL : pointDist (vp.project (tA.lat, tA.lng)) (vp.project (tB.lat, tB.lng)) ≠ 0) :
    ((drawFresnelZone towers link vp rs).attrs).map EllipseAttrs.ry =
      some (jsMul
        (JsVal.num (calculateMaxFresnelRadius ((tA.frequencyGHz : ℝ) * 1e9)
          (haversineDist (tA.lat, tA.lng) (tB.lat, tB.lng))))
        (jsDiv
          (JsVal.num (pointDist (vp.project (tA.lat, tA.lng)) (vp.project (tB.lat, tB.lng))))
          (JsVal.num (haversineDist (tA.lat, tA.lng) (tB.lat, tB.lng))))) ∧
    ((drawFresnelZone towers link vp rs).attrs).map EllipseAttrs.rx =
      some (pointDist (vp.project (tA.lat, tA.lng)) (vp.project (tB.lat, tB.lng)) / 2) := by
  constructor
  · unfold drawFresnelZone
    rw [hA, hB]
    have hkey := jsScale_eq
      (calculateMaxFresnelRadius ((tA.frequencyGHz : ℝ) * 1e9)
        (haversineDist (tA.lat, tA.lng) (tB.lat, tB.lng)))
      (haversineDist (tA.lat, tA.lng) (tB.lat, tB.lng))
      (pointDist (vp.project (tA.lat, tA.lng)) (vp.project (tB.lat, tB.lng)))
      hL (pointDist_nonneg _ _)
      (fun h => by rw [h]; exact calculateMaxFresnelRadius_nonpos _ _ le_rfl)
    exact congrArg some hkey
  · unfold drawFresnelZone
    rw [hA, hB]
    rfl

/-- Witness for C5 on a concrete two-tower state with distinct projected
endpoints. -/
theorem ellipse_axes_from_projected_scale_witness :
    ((drawFresnelZone [towerOne, towerTwo] linkOne vpId rsEmpty).attrs).map EllipseAttrs.rx =
      some (pointDist (vpId.project (towerOne.lat, towerOne.lng))
        (vpId.project (towerTwo.lat, towerTwo.lng)) / 2) :=
  (ellipse_axes_from_projected_scale [towerOne, towerTwo] linkOne vpId rsEmpty towerOne towerTwo
    rfl rfl
    (by
      have h : (0:ℝ) < pointDist (vpId.project (towerOne.lat, towerOne.lng))
          (vpId.project (towerTwo.lat, towerTwo.lng)) := by
        unfold pointDist
        apply Real.sqrt_pos.2
        unfold vpId towerOne towerTwo
        norm_num
      exact ne_of_gt h)).2

theorem computeEllipseAttrs_ry_nan (vp : Viewport) (tA tB : Tower)
    (hlat : tA.lat = tB.lat) (hlng : tA.lng = tB.lng) :
    (computeEllipseAttrs vp tA tB).ry = JsVal.nan := by
  simp only [computeEllipseAttrs]
  rw [hlat, hlng, haversineDist_self, pointDist_self,
    calculateMaxFresnelRadius_nonpos _ _ le_rfl]
  simp [jsDiv]

theorem computeEllipseAttrs_rx_zero (vp : Viewport) (tA tB : Tower)
    (hlat : tA.lat = tB.lat) (hlng : tA.lng = tB.lng) :
    (computeEllipseAttrs vp tA tB).rx = 0 := by
  simp only [computeEllipseAttrs]
  rw [hlat, hlng, pointDist_self]
  norm_num

/-- Concrete link joining the two co-located towers. -/
def linkSame : Link :=
  { id := EntityId.link 3, towerAId := EntityId.tower 1, towerBId := EntityId.tower 2,
    className := "leaflet-link-line" }

/-- C2: rendering a link between two towers at identical coordinates writes
`ry = NaN` to the ellipse — the `metersPerPixel = distanceMeters /
lengthPixels` division at `src/app.js` line 263 is NOT guarded, so `0 / 0 =
NaN` propagates into the rendered attributes (while `rx` degrades to 0). -/
theorem identical_towers_render_nan :
    ((drawFresnelZone [towerSameA, towerSameB] linkSame vpId rsEmpty).attrs).map
        EllipseAttrs.ry = some JsVal.nan ∧
    ((drawFresnelZone [towerSameA, towerSameB] linkSame vpId rsEmpty).attrs).map
        EllipseAttrs.rx = some 0 ∧
    (drawFresnelZone [towerSameA, towerSameB] linkSame vpId rsEmpty).visible = true := by
  have hA : List.find? (fun t => t.id == linkSame.towerAId) [towerSameA, towerSameB] =
      some towerSameA := rfl
  have hB : List.find? (fun t => t.id == linkSame.towerBId) [towerSameA, towerSameB] =
      some towerSameB := rfl
  unfold drawFresnelZone
  rw [hA, hB]
  refine ⟨?_, ?_, rfl⟩
  · have h := computeEllipseAttrs_ry_nan vpId towerSameA towerSameB rfl rfl
    simpa using h
  · have h := computeEllipseAttrs_rx_zero vpId towerSameA towerSameB rfl rfl
    simpa using h

/-- C9 (amended): if either referenced tower is missing, `drawFresnelZone`
returns leaving the render state entirely unchanged — no error is raised or
surfaced and no ellipse is created or updated (but a previously rendered
ellipse is not removed). -/
theorem missing_tower_aborts (towers : List Tower) (link : Link) (vp : Viewport)
    (rs : RenderState)
    (h : towers.find? (fun t => t.id == link.towerAId) = none ∨
         towers.find? (fun t => t.id == link.towerBId) = none) :
    drawFresnelZone towers link vp rs = rs := by
  unfold drawFresnelZone
  rcases h with h | h
  · rw [h]
  · cases hA : towers.find? (fun t => t.id == link.towerAId) <;> rw [h]

/-- Witness for C9 with an empty tower collection. -/
theorem missing_tower_aborts_witness :
    List.find? (fun t => t.id == linkOne.towerAId) ([] : List Tower) = none ∧
    drawFresnelZone [] linkOne vpId rsEmpty = rsEmpty :=
  ⟨rfl, missing_tower_aborts [] linkOne vpId rsEmpty (Or.inl rfl)⟩

/-- Counterexample to C9 as stated: with both towers missing but an ellipse
left over from an earlier render, the overlay is still visible and still
holds an ellipse — "no ellipse is shown" is false in this state. -/
theorem stale_ellipse_persists :
    List.find? (fun t => t.id == linkOne.towerAId) ([] : List Tower) = none ∧
    (drawFresnelZone [] linkOne vpId rsStale).visible = true ∧
    (drawFresnelZone [] linkOne vpId rsStale).attrs = some attrsZero ∧
    (drawFresnelZone [] linkOne vpId rsStale).ellipseCount = 1 :=
  ⟨rfl, rfl, rfl, rfl⟩

/-- C7: when the second clicked tower's frequency differs from the first's
(after the frequency-edit step), link creation is rejected atomically — no
link is added, the selection is untouched, and the pending phase is cleared. -/
theorem mismatch_rejects_link
    (s : AppState) (towerId aId : EntityId) (pr : Option ℚ) (tA tB : Tower)
    (hphase : s.activeLinkPhase = some aId)
    (hne : aId ≠ towerId)
    (hA : (applyFreqEdit s towerId pr).towers.find? (fun t => t.id == aId) = some tA)
    (hB : (applyFreqEdit s towerId pr).towers.find? (fun t => t.id == towerId) = some tB)
    (hfreq : tA.frequencyGHz ≠ tB.frequencyGHz) :
    ∃ s', handleTowerClick s towerId pr = some s' ∧
      s'.links = s.links ∧ s'.selectedLinkId = s.selectedLinkId ∧
      s'.activeLinkPhase = none := by
  obtain ⟨hlinks, hsel, hph, -⟩ := applyFreqEdit_preserves s towerId pr
  refine ⟨{ applyFreqEdit s towerId pr with activeLinkPhase := none }, ?_, hlinks, hsel, rfl⟩
  simp only [handleTowerClick]
  rw [hph, hphase]
  dsimp only
  rw [if_neg hne, hA, hB]
  dsimp only
  rw [if_neg hfreq]

/-- A state holding two towers with different frequencies, the first one
pending as link start. -/
def stateMismatch : AppState :=
  { towers := [{ id := EntityId.tower 1, lat := 0, lng := 0, frequencyGHz := 6 },
               { id := EntityId.tower 2, lat := 3, lng := 4, frequencyGHz := 2 }],
    links := [], activeLinkPhase := some (EntityId.tower 1), selectedLinkId := none,
    nextId := 3 }

/-- Witness for C7: clicking the 2 GHz tower while the 6 GHz tower is
pending. -/
theorem mismatch_rejects_link_witness :
    ∃ s', handleTowerClick stateMismatch (EntityId.tower 2) none = some s' ∧
      s'.links = stateMismatch.links ∧ s'.selectedLinkId = stateMismatch.selectedLinkId ∧
      s'.activeLinkPhase = none :=
  mismatch_rejects_link stateMismatch (EntityId.tower 2) (EntityId.tower 1) none
    { id := EntityId.tower 1, lat := 0, lng := 0, frequencyGHz := 6 }
    { id := EntityId.tower 2, lat := 3, lng := 4, frequencyGHz := 2 }
    rfl (by decide) rfl rfl (by norm_num)

/-- C10: the rendered ellipse does not depend on tower B's frequency — only
tower A's frequency enters the Fresnel computation (`src/app.js` line 209),
so overwriting tower B's frequency leaves the entire render state equal. -/
theorem towerB_freq_noninterference
    (towers : List Tower) (link : Link) (vp : Viewport) (rs : RenderState) (q : ℚ)
    (hne : link.towerAId ≠ link.towerBId) :
    drawFresnelZone (updateTowerFreq towers link.towerBId q) link vp rs =
      drawFresnelZone towers link vp rs := by
  unfold drawFresnelZone updateTowerFreq
  have hid : ∀ t : Tower,
      (if t.id = link.towerBId then { t with frequencyGHz := q } else t).id = t.id := by
    intro t
    split <;> rfl
  rw [find?_key_map Tower.id _ hid, find?_key_map Tower.id _ hid]
  cases hA : towers.find? (fun t => t.id == link.towerAId) with
  | none => rfl
  | some tA =>
    cases hB : towers.find? (fun t => t.id == link.towerBId) with
    | none => rfl
    | some tB =>
      have htA : tA.id = link.towerAId := find?_key_eq Tower.id towers link.towerAId tA hA
      have htA' : ¬(tA.id = link.towerBId) := by rw [htA]; exact hne
      have htB : tB.id = link.towerBId := find?_key_eq Tower.id towers link.towerBId tB hB
      simp only [Option.map_some', if_neg htA', if_pos htB]
      rfl

/-- Witness for C10: overwriting `towerTwo`'s frequency to 2 GHz does not
change the render. -/
theorem towerB_freq_noninterference_witness :
    linkOne.towerAId ≠ linkOne.towerBId ∧
    drawFresnelZone (updateTowerFreq [towerOne, towerTwo] linkOne.towerBId 2) linkOne vpId
        rsEmpty =
      drawFresnelZone [towerOne, towerTwo] linkOne vpId rsEmpty :=
  ⟨by decide,
   towerB_freq_noninterference [towerOne, towerTwo] linkOne vpId rsEmpty 2 (by decide)⟩

/-- C8: starting from a fresh render state with no selection, selecting link
L1 creates the single ellipse, and re-selecting link L2 mutates that same
single element for L2's towers, removes L1's highlight class, and leaves L2
as the only selected link. -/
theorem single_ellipse_after_reselect
    (s : AppState) (rs0 : RenderState) (vp : Viewport) (L1 L2 l1 : Link)
    (tA1 tB1 tA2 tB2 : Tower)
    (hsel : s.selectedLinkId = none)
    (hcount : rs0.ellipseCount = 0)
    (hA1 : s.towers.find? (fun t => t.id == L1.towerAId) = some tA1)
    (hB1 : s.towers.find? (fun t => t.id == L1.towerBId) = some tB1)
    (hA2 : s.towers.find? (fun t => t.id == L2.towerAId) = some tA2)
    (hB2 : s.towers.find? (fun t => t.id == L2.towerBId) = some tB2)
    (hmem : s.links.find? (fun l => l.id == L1.id) = some l1)
    (hne : L1.id ≠ L2.id) :
    (handleLinkClick s rs0 vp L1).2.ellipseCount = 1 ∧
    (handleLinkClick (handleLinkClick s rs0 vp L1).1 (handleLinkClick s rs0 vp L1).2 vp L2).2 =
      { ellipseCount := 1, attrs := some (computeEllipseAttrs vp tA2 tB2), visible := true } ∧
    (handleLinkClick (handleLinkClick s rs0 vp L1).1 (handleLinkClick s rs0 vp L1).2 vp
        L2).1.selectedLinkId = some L2.id ∧
    ((handleLinkClick (handleLinkClick s rs0 vp L1).1 (handleLinkClick s rs0 vp L1).2 vp
        L2).1.links.find? (fun l => l.id == L1.id)).map Link.className =
      some "leaflet-link-line" := by
  have hp1 : handleLinkClick s rs0 vp L1 =
      ({ s with
          selectedLinkId := some L1.id,
          links := setLinkClass s.links L1.id "leaflet-link-line-selected" },
       { ellipseCount := 1, attrs := some (computeEllipseAttrs vp tA1 tB1),
         visible := true }) := by
    simp only [handleLinkClick]
    rw [hsel]
    dsimp only
    unfold drawFresnelZone
    rw [hA1, hB1]
    dsimp only
    rw [hcount]
    simp
  have hp2 : handleLinkClick (handleLinkClick s rs0 vp L1).1 (handleLinkClick s rs0 vp L1).2
      vp L2 =
      ({ s with
          selectedLinkId := some L2.id,
          links := setLinkClass (setLinkClass (setLinkClass s.links L1.id
            "leaflet-link-line-selected") L1.id "leaflet-link-line") L2.id
            "leaflet-link-line-selected" },
       { ellipseCount := 1, attrs := some (computeEllipseAttrs vp tA2 tB2),
         visible := true }) := by
    rw [hp1]
    simp only [handleLinkClick]
    unfold drawFresnelZone
    rw [hA2, hB2]
    dsimp only
    simp
  have hstep : ∀ (ls : List Link) (i : EntityId) (c : String) (j : EntityId),
      (setLinkClass ls i c).find? (fun l => l.id == j) =
        (ls.find? (fun l => l.id == j)).map
          (fun l => if l.id = i then { l with className := c } else l) := by
    intro ls i c j
    unfold setLinkClass
    refine find?_key_map Link.id _ ?_ ls j
    intro l
    dsimp only
    split <;> rfl
  refine ⟨?_, ?_, ?_, ?_⟩
  · rw [hp1]
  · rw [hp2]
  · rw [hp2]
  · rw [hp2]
    dsimp only
    rw [hstep, hstep, hstep, hmem]
    have hl1 : l1.id = L1.id := find?_key_eq Link.id s.links L1.id l1 hmem
    simp [hl1, hne]

/-- A state with three towers and two candidate links, nothing selected. -/
def stateTwoLinks : AppState :=
  { towers := [towerOne, towerTwo, towerThree], links := [linkOne, linkTwo],
    activeLinkPhase := none, selectedLinkId := none, nextId := 6 }

/-- Witness for C8: selecting `linkOne` then `linkTwo` in a concrete state. -/
theorem single_ellipse_after_reselect_witness :
    stateTwoLinks.selectedLinkId = none ∧
    (handleLinkClick stateTwoLinks rsEmpty vpId linkOne).2.ellipseCount = 1 ∧
    (handleLinkClick (handleLinkClick stateTwoLinks rsEmpty vpId linkOne).1
        (handleLinkClick stateTwoLinks rsEmpty vpId linkOne).2 vpId
        linkTwo).1.selectedLinkId = some linkTwo.id :=
  ⟨rfl,
   (single_ellipse_after_reselect stateTwoLinks rsEmpty vpId linkOne linkTwo linkOne
      towerOne towerTwo towerOne towerThree rfl rfl rfl rfl rfl rfl rfl (by decide)).1,
   (single_ellipse_after_reselect stateTwoLinks rsEmpty vpId linkOne linkTwo linkOne
      towerOne towerTwo towerOne towerThree rfl rfl rfl rfl rfl rfl rfl
      (by decide)).2.2.1⟩
